import Mathlib

/-!
Verification of the DDI (drug-drug interaction) analysis pipeline of this
repository against its specification.  The definitions below are a shallow
embedding of `streamlit_app.py` (functions `clean_drug_name`,
`parse_time_slots`, `get_drug_label_text`, `analyze_row`, and the static
table `KNOWN_INTERACTIONS`) and of `structured_drug_db.py` (the `DRUGS`
name table, `get_drug_by_name`, `_fuzzy_match_name`).

Modelling conventions:
* All strings appearing in theorems are ASCII, so Python's `str.upper` /
  `str.lower` coincide with ASCII case mapping, `\w` is `[A-Za-z0-9_]`
  and `\s` is the usual ASCII whitespace class.
* The fuzzywuzzy scorer (`process.extractOne`'s WRatio) is an external
  library; every definition that reaches it is parameterised by a scoring
  function `sc : String -> String -> Nat` (0..100 scale).  `extractOne`
  returns the first key attaining the maximal score, as Python's `max` does.
* The FDA label fetch (`get_drug_label_text`'s HTTP call) is an external
  collaborator; it is a parameter `provider : String -> String` returning
  the aggregated label text ("" on any failure).
* Python `set` iteration order is unspecified; `parse_time_slots` returns
  its slot set as a list in the fixed canonical order Morning, Noon, Night.
  No property below depends on that order (the orchestrator's buckets are
  insensitive to it).
-/

namespace DDI

/-- ASCII word character, Python regex `\w` for ASCII input. -/
def isWordChar (c : Char) : Bool := c.isAlphanum || c = '_'

/-- ASCII whitespace, Python regex `\s` / `str.strip` for ASCII input. -/
def isSpaceChar (c : Char) : Bool :=
  c = ' ' || c = '\t' || c = '\n' || c = '\r' || c = '\x0b' || c = '\x0c'

/-- Python `str.lower` restricted to ASCII. -/
def pyLower (s : String) : String := ⟨s.data.map Char.toLower⟩

/-- Python `str.upper` restricted to ASCII. -/
def pyUpper (s : String) : String := ⟨s.data.map Char.toUpper⟩

/-- Python `str.strip` on a character list. -/
def stripChars (l : List Char) : List Char :=
  ((l.dropWhile isSpaceChar).reverse.dropWhile isSpaceChar).reverse

/-- Python `str.strip` on strings. -/
def pyStrip (s : String) : String := ⟨stripChars s.data⟩

/-- Try to consume the literal token `t` at the head of `s`;
return the remainder on success. -/
def matchTok : List Char → List Char → Option (List Char)
  | [], rest => some rest
  | _ :: _, [] => none
  | t :: ts, c :: cs => if c = t then matchTok ts cs else none

/-- Regex `\b` holds after a match ending in a word character iff the
next character is absent or not a word character. -/
def boundaryAfter : List Char → Bool
  | [] => true
  | c :: _ => !isWordChar c

/-- `pat` occurs as a contiguous substring of `s` (Python `in`). -/
def listContains (pat : List Char) : List Char → Bool
  | [] => pat.isEmpty
  | c :: cs => (matchTok pat (c :: cs)).isSome || listContains pat cs

/-- One left-to-right pass of `re.sub(pat, '', s)` for a pattern of the
form `\b...\b` whose first character is a word character.  `try1 s`
attempts a match at the current position and returns the remainder after
the match.  `prevW` records whether the previous character of the original
string was a word character, so the leading `\b` holds iff `!prevW` (the
pattern starts with a word character).  After a match the scan resumes
right after it with `prevW := true` (both patterns used below end in a
word character).  `fuel` bounds the recursion; callers pass the string
length, which suffices because a successful match consumes at least one
character. -/
def scanSub (try1 : List Char → Option (List Char)) :
    Nat → Bool → List Char → List Char
  | 0, _, s => s
  | _ + 1, _, [] => []
  | fuel + 1, prevW, c :: cs =>
    if prevW then c :: scanSub try1 fuel (isWordChar c) cs
    else
      match try1 (c :: cs) with
      | some rest => scanSub try1 fuel true rest
      | none => c :: scanSub try1 fuel (isWordChar c) cs

/-- Alternation `(T1|T2|...)\b` of literal word tokens at the current
position: the alternatives are tried in order, and an alternative whose
trailing `\b` fails does not block the later ones. -/
def tryToks (toks : List (List Char)) (s : List Char) : Option (List Char) :=
  match toks with
  | [] => none
  | t :: ts =>
    match matchTok t s with
    | some rest => if boundaryAfter rest then some rest else tryToks ts s
    | none => tryToks ts s

/-- `re.sub(r'\b(T1|T2|...)\b', '', s)`. -/
def subWordToks (toks : List (List Char)) (s : List Char) : List Char :=
  scanSub (tryToks toks) s.length false s

def digitHead : List Char → Bool
  | c :: _ => c.isDigit
  | [] => false

/-- Matcher for `\b\d+([.,]\d+)?\b` at the current position (the caller
has already checked the leading `\b`).  Implements the regex backtracking
over the optional decimal part: greedy digits, then `[.,]` plus digits
only if the trailing `\b` holds after them, else fall back to the integer
part alone (after which the next character `.` or `,` is not a word
character, so `\b` holds). -/
def tryNum (s : List Char) : Option (List Char) :=
  if digitHead s then
    let r1 := s.dropWhile Char.isDigit
    match r1 with
    | [] => some []
    | sep :: r2 =>
      if (sep = '.' || sep = ',') && digitHead r2 then
        let r3 := r2.dropWhile Char.isDigit
        if boundaryAfter r3 then some r3 else some r1
      else if isWordChar sep then none else some r1
  else none

/-- `re.sub(r'\b\d+([.,]\d+)?\b', '', s)`. -/
def subNums (s : List Char) : List Char := scanSub tryNum s.length false s

/-- `re.sub(r'\s+', ' ', s)`: collapse every whitespace run to one blank. -/
def collapseWsAux : Bool → List Char → List Char
  | _, [] => []
  | prevSpace, c :: cs =>
    if isSpaceChar c then
      if prevSpace then collapseWsAux true cs else ' ' :: collapseWsAux true cs
    else c :: collapseWsAux false cs

def collapseWs (l : List Char) : List Char := collapseWsAux false l

/-- The noise tokens of `clean_drug_name` step 1: `\b(ANS|KIE)\b`. -/
def noiseToks : List (List Char) := ["ANS".data, "KIE".data]

/-- The dosage-form and unit tokens of `clean_drug_name` step 4 in the
alternation order of the source regex. -/
def formToks : List (List Char) :=
  ["TAB".data, "CAP".data, "SYR".data, "DROP".data, "TABLET".data,
   "KAPSUL".data, "INJEKSI".data, "MG".data, "ML".data, "G".data, "PRN".data]

/-- The pure text normalisation of `clean_drug_name` (`streamlit_app.py`),
everything before the database lookup: uppercase and strip, remove noise
tokens, truncate at the first `#` or `:`, keep only the first line, remove
form/unit tokens and free-standing numbers, collapse whitespace.  The
newline truncation is written unconditionally: when no newline is present
it keeps the already-stripped text unchanged, as in the source. -/
def normalizeDrugText (raw : String) : String :=
  let t1 := stripChars (pyUpper raw).data
  let t2 := stripChars (subWordToks noiseToks t1)
  let t3 := stripChars (t2.takeWhile (fun c => !(c = '#' || c = ':')))
  let t4 := stripChars (t3.takeWhile (fun c => !(c = '\n')))
  let t5 := subWordToks formToks t4
  let t6 := subNums t5
  ⟨stripChars (collapseWs t6)⟩

/-- The `name` fields of the `DRUGS` table of `structured_drug_db.py`, in
source order.  Only the names are needed: the canonical string returned to
`clean_drug_name` is `drug.name.upper()`, and every dictionary key equals
`drug.name.lower()`, so the key determines the returned canonical name. -/
def drugNames : List String :=
  ["paracetamol", "panadol", "paracetamol extra", "panadol extra",
   "acetaminophen", "Sanmol", "Cetamol", "NEO KAOLANA", "KAOLANA", "bodrex",
   "ponstan", "aspirin", "ibuprofen", "promag", "amoxicillin", "cefixime",
   "azithromycin", "ciprofloxacin", "metronidazole", "clavic", "decadryl",
   "bisolvon", "actifed", "obh combi", "paratusin", "cetirizine",
   "loratadine", "incidal", "interhistin", "ctm", "omeprazole", "ranitidine",
   "gastran", "mylanta", "lansoprazole", "captopril", "amlodipine",
   "valsartan", "bisoprolol", "simvastatin", "atorvastatin", "lupin",
   "metformin", "glimepiride", "glyburide", "insulin", "vitamin c",
   "vitamin b12", "becom-c", "folic acid", "oscal", "domperidone",
   "betadine", "dexteem", "kalpanax", "oralit", "vicks vaporub",
   "salbutamol", "cetaphil", "dumin", "cataflam", "neurontin", "biogesic",
   "antimo", "diapet", "enervon c", "proris", "promethazine", "amaryl",
   "novalgin", "combantrin", "neo rheumacyl", "tolak angin",
   "larutan penyegar", "mixagrip", "bodrexin", "antangin", "entrostop",
   "neo napacin", "konidin", "silex", "alpara", "rhinos sr", "rhinofed",
   "histapan", "cetal", "pracetam", "fasidol", "sanmol", "neozep",
   "bodrex flu dan batuk", "feverin", "tempra", "demacolin", "nalgestan",
   "rhinos", "nasacort", "bodrex flu", "rhinos junior", "fluimucil",
   "lasix", "imodium", "zoralin", "myco-z", "dexa-m", "flutamol",
   "obh kaca", "erysanbe chewibel", "tremenza", "mucohexin", "tiriz",
   "sirplus", "Bufect", "Mixagrip Flu & Batuk", "OBH Combi Batuk Berdahak",
   "OBH Combi Batuk Kering", "Paracetamol Extra", "Panadol Extra",
   "Bodrexin Extra", "Amoxan", "Amoxan 500", "Amoxan 625",
   "Amlodipine Hexpharm", "Amlodipine Besylate", "Piracetam", "Nootropil",
   "Nootropil 800", "Nootropil 1200", "Dinagen", "Dinagen 800", "Qropil",
   "Qropil 800", "Qropil 1200", "Cefixime Hexpharm", "Cefixime Hexpharm 200",
   "Cefixime Hexpharm 400", "Cefixime Hexpharm 600", "Aptor", "asetosal",
   "Cefspan", "Cefspan 200", "Cefspan 400", "Cefspan 600",
   "Azithromycin Hexpharm", "Ciproxin", "Ciproxin 250", "Ciproxin 500",
   "Ciproxin 750", "Flagyl", "Flagyl 250", "Flagyl 500", "Flagyl 750",
   "Clavimox", "Clavimox 625", "Clavimox 875", "Decadryl Forte",
   "Bisolvon Forte", "Actifed Cold & Allergy", "OBH Combi Botol Kaca",
   "Amlodipine", "Piracetam 800", "ACRAN", "RANITIDINE HEXPHARM", "ANALSIK",
   "ASAM TRANEKSAMAT", "TRANEXAMIC ACID", "TRANEXAMIC",
   "TRANEXAMIC HEXPHARM", "TRANEXAMIC ACID HEXPHARM", "BETAHISTIN MESYLATE",
   "BETAHISTINE MESYLATE", "BETAHISTINE", "CANDESARTAN",
   "CANDESARTAN CILEXETIL", "CEFADROXYL", "CEFADROXIL", "DOMPERIDONE",
   "DOMPERIDON", "ERMUNON", "ERYTHROMYCIN", "ERYTHROMYCIN ETHYLSUCCINATE",
   "ERYTHROMYCIN STEARATE", "FLUCONAZOLE", "FLUCONAZOL", "GLIQUIDONE",
   "KETOROLAC", "KETOROLAC TROMETHAMINE", "KETOROLAC TRIMETHAMINE",
   "LORATADINE", "LORATADIN", "METFORMIN", "METFORMIN Hydrochloride",
   "METFORMIN HYDROCHLORIDE", "ONDANSETRON", "ONDANSETRON HYDROCHLORIDE",
   "ONDANSETRON HYDROCHLORIDE DIHYDRATE", "ONDANSETRON Hydrochloride",
   "RANITIDIN", "SANTAGESIK", "SANTAGESIC", "SUCRALFATE", "SUCRALFAT",
   "SULFAZALAZINE", "ZINC SULFATE", "ZINC SULPHATE", "ZINC",
   "ZINC PICOLINATE", "ZINC GLUCONATE", "ZINC OXIDE", "ZINC CHLORIDE",
   "ZINC CITRATE", "ZINC SULFIDE", "ZINC SULPHIDE", "ZINC ACETATE",
   "ZINC ASPARTATE", "ZINC METHIONINE", "ZINC ORTHOPHOSPHATE", "APIALYS",
   "APO-ALYS", "APOALYS", "BAQUINOR FORTE", "BAQUINOR", "BACTOPRIM",
   "BACTRIM", "BECOM C", "BECOM-C", "BECOMC", "CATAFLAM", "BIOTHICOL",
   "CHLORAMPHENICOL", "BRAXIDINE", "BRAXIDIN", "BUSCOPAN",
   "BUSCOPAN COMPOSITUM", "BUSCOPAN PLUS", "caco3", "calcium carbonate",
   "CEFAT", "CIPROFLOXACIN", "cobaziml", "COBAZIML", "COTRIMOXAZOLE",
   "CLOPIDOGREL", "kotrimoksazol", "CURCUMA", "DIAGIT", "DIAPET",
   "DICLOFENAC", "ELKANA", "ELKANA SYRUP", "ERYTHROMYCIN", "FLUCONAZOLE",
   "H C T", "HCT", "HYDROCHLOROTHIAZIDE", "IMODIUM", "LORAZEPAM",
   "INTERZINC", "INTUNAL FORTE", "INTUNAL", "KETOROLAC", "L-ZINC SYRUP",
   "L-ZINC", "LAGESIL", "LANZOPRAZOL", "LAPIFED", "LAPIFED DM",
   "LAPIFED Ekspektoran", "LAPIFED PLUS", "LAPRAZ", "Lasal",
   "Lasal Expectorant", "LASIX", "LASGAN", "L-BIO", "LEVOCIN",
   "LEVOFLOXACIN", "LODIAN", "LOPAMID", "LOPERAMIDE", "MELOXICAM",
   "MELATONIN", "METRONIDAZOL", "NEO KAOLANA", "NEW DIATAB",
   "ORALIT SACHET", "OSTELOX", "PROBIOKID", "PROBIOSTIM", "PROMUBA",
   "RATIVOL", "SANLIN", "SANMAG", "SANPRIMA", "SCOPAMIN", "SPASMAL",
   "SPORETIK", "TETRACYCLIN", "TRICHODAZOL", "Trilac", "TROVENSIS",
   "TROVAFLOXACIN", "VENOSMIL", "VOSEDON", "ZETOR", "ZETOR PLUS", "XEPAZYM",
   "glibenclamide", "chlorphenamine", "hyoscine butylbromide", "attapulgite",
   "silymarin", "pseudoephedrine-triprolidine", "salbutamol",
   "triamcinolone", "ranitidine", "hyoscine-paracetamol",
   "triprolidine-pseudoephedrine", "magnesium trisilicate"]

/-- The keys of `DRUG_BY_NAME`: lowercased names, first occurrence kept
(Python dict insertion order; a repeated key overrides the value but keeps
its original position).  Written as a literal for tractable kernel
evaluation; `drugKeys_src` certifies it against the source name table. -/
def drugKeys : List String :=
  ["paracetamol", "panadol", "paracetamol extra", "panadol extra",
   "acetaminophen", "sanmol", "cetamol", "neo kaolana", "kaolana", "bodrex",
   "ponstan", "aspirin", "ibuprofen", "promag", "amoxicillin", "cefixime",
   "azithromycin", "ciprofloxacin", "metronidazole", "clavic", "decadryl",
   "bisolvon", "actifed", "obh combi", "paratusin", "cetirizine",
   "loratadine", "incidal", "interhistin", "ctm", "omeprazole", "ranitidine",
   "gastran", "mylanta", "lansoprazole", "captopril", "amlodipine",
   "valsartan", "bisoprolol", "simvastatin", "atorvastatin", "lupin",
   "metformin", "glimepiride", "glyburide", "insulin", "vitamin c",
   "vitamin b12", "becom-c", "folic acid", "oscal", "domperidone",
   "betadine", "dexteem", "kalpanax", "oralit", "vicks vaporub",
   "salbutamol", "cetaphil", "dumin", "cataflam", "neurontin", "biogesic",
   "antimo", "diapet", "enervon c", "proris", "promethazine", "amaryl",
   "novalgin", "combantrin", "neo rheumacyl", "tolak angin",
   "larutan penyegar", "mixagrip", "bodrexin", "antangin", "entrostop",
   "neo napacin", "konidin", "silex", "alpara", "rhinos sr", "rhinofed",
   "histapan", "cetal", "pracetam", "fasidol", "neozep",
   "bodrex flu dan batuk", "feverin", "tempra", "demacolin", "nalgestan",
   "rhinos", "nasacort", "bodrex flu", "rhinos junior", "fluimucil", "lasix",
   "imodium", "zoralin", "myco-z", "dexa-m", "flutamol", "obh kaca",
   "erysanbe chewibel", "tremenza", "mucohexin", "tiriz", "sirplus",
   "bufect", "mixagrip flu & batuk", "obh combi batuk berdahak",
   "obh combi batuk kering", "bodrexin extra", "amoxan", "amoxan 500",
   "amoxan 625", "amlodipine hexpharm", "amlodipine besylate", "piracetam",
   "nootropil", "nootropil 800", "nootropil 1200", "dinagen", "dinagen 800",
   "qropil", "qropil 800", "qropil 1200", "cefixime hexpharm",
   "cefixime hexpharm 200", "cefixime hexpharm 400", "cefixime hexpharm 600",
   "aptor", "asetosal", "cefspan", "cefspan 200", "cefspan 400",
   "cefspan 600", "azithromycin hexpharm", "ciproxin", "ciproxin 250",
   "ciproxin 500", "ciproxin 750", "flagyl", "flagyl 250", "flagyl 500",
   "flagyl 750", "clavimox", "clavimox 625", "clavimox 875",
   "decadryl forte", "bisolvon forte", "actifed cold & allergy",
   "obh combi botol kaca", "piracetam 800", "acran", "ranitidine hexpharm",
   "analsik", "asam traneksamat", "tranexamic acid", "tranexamic",
   "tranexamic hexpharm", "tranexamic acid hexpharm", "betahistin mesylate",
   "betahistine mesylate", "betahistine", "candesartan",
   "candesartan cilexetil", "cefadroxyl", "cefadroxil", "domperidon",
   "ermunon", "erythromycin", "erythromycin ethylsuccinate",
   "erythromycin stearate", "fluconazole", "fluconazol", "gliquidone",
   "ketorolac", "ketorolac tromethamine", "ketorolac trimethamine",
   "loratadin", "metformin hydrochloride", "ondansetron",
   "ondansetron hydrochloride", "ondansetron hydrochloride dihydrate",
   "ranitidin", "santagesik", "santagesic", "sucralfate", "sucralfat",
   "sulfazalazine", "zinc sulfate", "zinc sulphate", "zinc",
   "zinc picolinate", "zinc gluconate", "zinc oxide", "zinc chloride",
   "zinc citrate", "zinc sulfide", "zinc sulphide", "zinc acetate",
   "zinc aspartate", "zinc methionine", "zinc orthophosphate", "apialys",
   "apo-alys", "apoalys", "baquinor forte", "baquinor", "bactoprim",
   "bactrim", "becom c", "becomc", "biothicol", "chloramphenicol",
   "braxidine", "braxidin", "buscopan", "buscopan compositum",
   "buscopan plus", "caco3", "calcium carbonate", "cefat", "cobaziml",
   "cotrimoxazole", "clopidogrel", "kotrimoksazol", "curcuma", "diagit",
   "diclofenac", "elkana", "elkana syrup", "h c t", "hct",
   "hydrochlorothiazide", "lorazepam", "interzinc", "intunal forte",
   "intunal", "l-zinc syrup", "l-zinc", "lagesil", "lanzoprazol", "lapifed",
   "lapifed dm", "lapifed ekspektoran", "lapifed plus", "lapraz", "lasal",
   "lasal expectorant", "lasgan", "l-bio", "levocin", "levofloxacin",
   "lodian", "lopamid", "loperamide", "meloxicam", "melatonin",
   "metronidazol", "new diatab", "oralit sachet", "ostelox", "probiokid",
   "probiostim", "promuba", "rativol", "sanlin", "sanmag", "sanprima",
   "scopamin", "spasmal", "sporetik", "tetracyclin", "trichodazol", "trilac",
   "trovensis", "trovafloxacin", "venosmil", "vosedon", "zetor",
   "zetor plus", "xepazym", "glibenclamide", "chlorphenamine",
   "hyoscine butylbromide", "attapulgite", "silymarin",
   "pseudoephedrine-triprolidine", "triamcinolone", "hyoscine-paracetamol",
   "triprolidine-pseudoephedrine", "magnesium trisilicate"]

set_option maxRecDepth 8000 in
set_option maxHeartbeats 4000000 in
/-- `drugKeys` is exactly the lowercased `DRUGS` name list with later
duplicates removed (first occurrence kept), i.e. the key sequence of the
Python dict comprehension building `DRUG_BY_NAME`. -/
theorem drugKeys_src : drugKeys = (drugNames.map pyLower).eraseDups := by
  rfl

/-- `fuzzywuzzy.process.extractOne`: the best `(key, score)` over `keys`
under scorer `sc`, keeping the first key that attains the maximum (Python
`max` keeps the earliest maximal element). -/
def extractOne (sc : String → String → Nat) (q : String) (keys : List String) :
    Option (String × Nat) :=
  match keys with
  | [] => none
  | k :: ks =>
    some (ks.foldl (fun best k2 => if sc q k2 > best.2 then (k2, sc q k2) else best)
      (k, sc q k))

/-- The fixed acceptance threshold of `_fuzzy_match_name`
(`structured_drug_db.py`, parameter default `threshold=80`). -/
def fuzzyThreshold : Nat := 80

/-- `_fuzzy_match_name` from `structured_drug_db.py`, parameterised by the
external fuzzywuzzy scorer. -/
def fuzzyMatchName (sc : String → String → Nat) (name : String)
    (keys : List String) : Option String :=
  if name = "" || keys.isEmpty then none
  else
    match extractOne sc name keys with
    | none => none
    | some ks => if fuzzyThreshold ≤ ks.2 then some ks.1 else none

/-- `get_drug_by_name` from `structured_drug_db.py`, reduced to the
dictionary key it resolves to (exact lowercase hit first, else fuzzy).
The `Drug` stored under key `k` satisfies `drug.name.lower() = k`, so the
canonical name `drug.name.upper()` the caller builds equals `pyUpper k`;
the key carries all the information the caller uses. -/
def getDrugByName (sc : String → String → Nat) (name : String) :
    Option String :=
  if drugKeys.contains (pyLower name) then some (pyLower name)
  else fuzzyMatchName sc name drugKeys

/-- `clean_drug_name` from `streamlit_app.py` on a string input, with the
structured database available. -/
def cleanDrugName (sc : String → String → Nat) (raw : String) : String :=
  let text := normalizeDrugText raw
  match getDrugByName sc text with
  | some k => pyUpper k
  | none => text

inductive Slot
  | Morning
  | Noon
  | Night
deriving DecidableEq, Repr

/-- One numeric or fractional field of the `M-N-Ni` triplet pattern: the
digit string, and the denominator digit string when the field is an `a/b`
fraction. -/
abbrev TField := String × Option String

def digitsOf (s : List Char) : String × List Char :=
  (⟨s.takeWhile Char.isDigit⟩, s.dropWhile Char.isDigit)

/-- `\d+(?:/\d+)?` in a position whose continuation is `\s*-`: the
fraction part is taken whenever `/` plus a digit follows (dropping it
cannot rescue the continuation, which needs a `-` where the `/` stands). -/
def parseFieldMid (s : List Char) : Option (TField × List Char) :=
  if digitHead s then
    let dr := digitsOf s
    match dr.2 with
    | '/' :: r2 =>
      if digitHead r2 then
        let dr2 := digitsOf r2
        some ((dr.1, some dr2.1), dr2.2)
      else some ((dr.1, none), dr.2)
    | _ => some ((dr.1, none), dr.2)
  else none

/-- `\d+(?:/\d+)?\b` for the final field, with the regex backtracking: if
the fraction part is taken but the trailing `\b` fails, retry with the
integer part alone (then the next character is the `/`, not a word
character, so `\b` holds). -/
def parseFieldLast (s : List Char) : Option TField :=
  if digitHead s then
    let dr := digitsOf s
    match dr.2 with
    | '/' :: r2 =>
      if digitHead r2 then
        let dr2 := digitsOf r2
        if boundaryAfter dr2.2 then some (dr.1, some dr2.1)
        else some (dr.1, none)
      else some (dr.1, none)
    | _ => if boundaryAfter dr.2 then some (dr.1, none) else none
  else none

def skipWs (s : List Char) : List Char := s.dropWhile isSpaceChar

/-- `\s*-\s*` -/
def parseDash (s : List Char) : Option (List Char) :=
  match skipWs s with
  | '-' :: r => some (skipWs r)
  | _ => none

abbrev Triplet := TField × TField × TField

/-- The body of the triplet regex of `parse_time_slots`
(`\b(\d+(?:/\d+)?)\s*-\s*(\d+(?:/\d+)?)\s*-\s*(\d+(?:/\d+)?)\b`) at the
current position; the caller has checked the leading `\b`. -/
def tryTripletAt (s : List Char) : Option Triplet := do
  let fr1 ← parseFieldMid s
  let r2 ← parseDash fr1.2
  let fr2 ← parseFieldMid r2
  let r4 ← parseDash fr2.2
  let f3 ← parseFieldLast r4
  pure (fr1.1, fr2.1, f3)

/-- `re.search` for the triplet pattern: leftmost match, scanning left to
right; `prevW` tracks word-ness of the previous character for `\b`. -/
def findTripletAux : Nat → Bool → List Char → Option Triplet
  | 0, _, _ => none
  | _ + 1, _, [] => none
  | fuel + 1, prevW, c :: cs =>
    if prevW then findTripletAux fuel (isWordChar c) cs
    else
      match tryTripletAt (c :: cs) with
      | some t => some t
      | none => findTripletAux fuel (isWordChar c) cs

def findTriplet (s : List Char) : Option Triplet :=
  findTripletAux s.length false s

/-- Digit strings that Python 3 `eval` rejects as integer literals: a
leading zero followed by a nonzero digit somewhere is a SyntaxError
(`eval("01")`, `eval("010")` raise), while all-zero literals are valid
(`eval("00") = 0`). -/
def invalidIntLit (s : String) : Bool :=
  match s.data with
  | '0' :: rest => !rest.isEmpty && rest.any (fun c => c ≠ '0')
  | _ => false

def natOfDigits (s : String) : Nat :=
  s.data.foldl (fun n c => n * 10 + (c.toNat - '0'.toNat)) 0

/-- Python `eval` of one triplet field, abstracted to the fact the caller
tests: `none` when `eval` raises — an invalid integer literal in the
numerator or denominator is a SyntaxError, a zero-valued denominator
(`"0"`, `"00"`, ...) a ZeroDivisionError — otherwise `some (value > 0)`;
a fraction `a/b` with valid parts and nonzero `b` is positive iff `a`
is. -/
def evalFieldPos (f : TField) : Option Bool :=
  if invalidIntLit f.1 then none
  else
    match f.2 with
    | none => some (0 < natOfDigits f.1)
    | some b =>
      if invalidIntLit b || natOfDigits b = 0 then none
      else some (0 < natOfDigits f.1)

/-- Slots activated by the triplet fields.  The three `eval` calls of the
source run in one `try` block, so the first field whose `eval` raises
aborts the remaining additions while keeping slots already added. -/
def tripletSlots (t : Triplet) : List Slot :=
  match evalFieldPos t.1 with
  | none => []
  | some p1 =>
    let s1 := if p1 then [Slot.Morning] else []
    match evalFieldPos t.2.1 with
    | none => s1
    | some p2 =>
      let s2 := if p2 then [Slot.Noon] else []
      match evalFieldPos t.2.2 with
      | none => s1 ++ s2
      | some p3 => s1 ++ s2 ++ (if p3 then [Slot.Night] else [])

/-- Matcher for `(\d+)\s*(?:dd|x)` at the current position (this pattern
has no `\b`, so every position is a candidate). -/
def tryFreqAt (s : List Char) : Option Nat :=
  if digitHead s then
    let dr := digitsOf s
    match skipWs dr.2 with
    | 'd' :: 'd' :: _ => some (natOfDigits dr.1)
    | 'x' :: _ => some (natOfDigits dr.1)
    | _ => none
  else none

def findFreqAux : Nat → List Char → Option Nat
  | 0, _ => none
  | _ + 1, [] => none
  | fuel + 1, c :: cs =>
    match tryFreqAt (c :: cs) with
    | some n => some n
    | none => findFreqAux fuel cs

def findFreq (s : List Char) : Option Nat := findFreqAux s.length s

def slotList (m n ni : Bool) : List Slot :=
  (if m then [Slot.Morning] else []) ++ (if n then [Slot.Noon] else []) ++
    (if ni then [Slot.Night] else [])

/-- `parse_time_slots` from `streamlit_app.py`.  The returned list is in
the canonical Morning, Noon, Night order (the source returns
`list(set(...))`, whose order is unspecified; no caller depends on it). -/
def parseTimeSlots (s : String) : List Slot :=
  let ls := (pyLower s).data
  let tslots :=
    match findTriplet ls with
    | some t => tripletSlots t
    | none => []
  if tslots ≠ [] then tslots
  else
    let freq := (findFreq ls).getD 0
    let night := listContains "malam".data ls || listContains "night".data ls
    let morning := listContains "pagi".data ls || listContains "morning".data ls
    let noon := listContains "siang".data ls || listContains "noon".data ls
    let kw := slotList morning noon night
    let base := if kw = [] then slotList (1 ≤ freq) (3 ≤ freq) (2 ≤ freq) else kw
    if base = [] then [Slot.Morning] else base

/-- `KNOWN_INTERACTIONS` from `streamlit_app.py`: unordered name pair,
severity, description. -/
def knownInteractions : List ((String × String) × String × String) :=
  [(("AMLODIPINE", "PHENYTOIN"), "Major",
    "Phenytoin decreases levels of Amlodipine by increasing metabolism."),
   (("ASPIRIN", "IBUPROFEN"), "Major",
    "Ibuprofen may interfere with the anti-platelet effect of low-dose Aspirin."),
   (("FENOFIBRATE", "SIMVASTATIN"), "Major",
    "Increased risk of myopathy/rhabdomyolysis."),
   (("CLOPIDOGREL", "WARFARIN"), "Major", "Increased risk of bleeding."),
   (("WARFARIN", "MELOXICAM"), "Major",
    "NSAIDs increase bleeding risk with Anticoagulants."),
   (("CARVEDILOL", "IBUPROFEN"), "Moderate",
    "NSAIDs may diminish the antihypertensive effect of Beta-blockers."),
   (("PHENYTOIN", "FOLIC ACID"), "Moderate",
    "Phenytoin may decrease serum Folic Acid; Folic Acid may decrease Phenytoin levels."),
   (("MELOXICAM", "CAPTOPRIL"), "Moderate",
    "NSAIDs may diminish the antihypertensive effect of ACE Inhibitors."),
   (("MELOXICAM", "METFORMIN"), "Moderate",
    "Use with caution (renal function monitoring)."),
   (("MELOXICAM", "GLYBURIDE"), "Moderate",
    "NSAIDs may increase the effect of sulfonylureas (hypoglycemia risk)."),
   (("MELOXICAM", "FENOFIBRATE"), "Moderate",
    "Potential risk of renal toxicity."),
   (("MELOXICAM", "NIFEDIPINE"), "Moderate",
    "NSAIDs may diminish the antihypertensive effect of Calcium Channel Blockers."),
   (("CAPTOPRIL", "METFORMIN"), "Moderate",
    "ACE inhibitors may enhance the hypoglycemic effect of Metformin."),
   (("CAPTOPRIL", "GLYBURIDE"), "Moderate",
    "ACE inhibitors may enhance the hypoglycemic effect of Sulfonylureas."),
   (("SPIRONOLACTONE", "DIGOXIN"), "Minor",
    "Spironolactone may increase Digoxin levels.")]

/-- Knowledge-base lookup with the unordered `frozenset` key: `{a, b}`
matches an entry `{n1, n2}` in either orientation. -/
def kbLookup (a b : String) : Option (String × String) :=
  (knownInteractions.find? fun e =>
      (e.1.1 == a && e.1.2 == b) || (e.1.1 == b && e.1.2 == a)).map (·.2)

/-- `get_drug_label_text` from `streamlit_app.py`: the HTTP fetch is the
external `provider` (returning the aggregated label text, "" on any
failure); empty names and names shorter than 3 characters are rejected
before any fetch. -/
def getDrugLabelText (provider : String → String) (name : String) : String :=
  if name = "" || name.length < 3 then "" else provider name

/-- One output alert record of `analyze_row`. -/
structure Alert where
  rowId : Nat
  slot : Slot
  pair : String
  warning : String
  severity : String
deriving DecidableEq, Repr

/-- The per-pair classification body of `analyze_row`'s inner loop:
static knowledge base first (a hit returns immediately), else the FDA
label fallback, which searches drug `d2`'s name in the uppercased label
text of drug `d1` and, on a hit, emits a fixed-severity "Moderate" alert. -/
def classifyPair (provider : String → String) (rowId : Nat) (slot : Slot)
    (d1 d2 : String) : Option Alert :=
  match kbLookup d1 d2 with
  | some sd =>
    some ⟨rowId, slot, d1 ++ " + " ++ d2, "[KB] " ++ sd.2, sd.1⟩
  | none =>
    let labelText := getDrugLabelText provider d1
    if labelText ≠ "" && listContains d2.data (pyUpper labelText).data then
      some ⟨rowId, slot, d1 ++ " + " ++ d2,
        "Potential interaction mentioned in " ++ d1 ++ " FDA label regarding "
          ++ d2 ++ ".", "Moderate"⟩
    else none

/-- Python string `<` (lexicographic by code point), as a Bool. -/
def listLtB : List Char → List Char → Bool
  | [], [] => false
  | [], _ :: _ => true
  | _ :: _, [] => false
  | a :: as, b :: bs =>
    if a.val < b.val then true
    else if b.val < a.val then false
    else listLtB as bs

/-- Python string `<=`. -/
def strLeB (a b : String) : Bool := !listLtB b.data a.data

/-- Python `sorted(list(set(drugs)))`. -/
def sortedUnique (l : List String) : List String :=
  l.dedup.insertionSort (fun a b => strLeB a b = true)

/-- The `i < j` double loop over `unique_drugs`, in loop order. -/
def pairsOf : List String → List (String × String)
  | [] => []
  | d :: ds => ds.map (fun e => (d, e)) ++ pairsOf ds

/-- Alerts contributed by one time-slot bucket of `analyze_row`. -/
def bucketAlerts (provider : String → String) (rowId : Nat) (slot : Slot)
    (drugs : List String) : List Alert :=
  if drugs.length < 2 then []
  else
    (pairsOf (sortedUnique drugs)).filterMap fun p =>
      classifyPair provider rowId slot p.1 p.2

/-- The per-slot buckets of `analyze_row` (its `time_buckets` dict). -/
def Buckets := Slot → List String

def emptyBuckets : Buckets := fun _ => []

def addName (b : Buckets) (s : Slot) (name : String) : Buckets :=
  fun s' => if s' = s then b s' ++ [name] else b s'

/-- One entry step of the `analyze_row` bucket-building loop: resolve the
entry and append its canonical name to every bucket of its parsed slots;
entries cleaning to "" are skipped. -/
def bucketStep (sc : String → String → Nat) (b : Buckets) (item : String) :
    Buckets :=
  let name := cleanDrugName sc item
  if name = "" then b
  else (parseTimeSlots item).foldl (fun b2 s => addName b2 s name) b

/-- Phase 1 of `analyze_row`: fold the entries into the three buckets. -/
def timeBuckets (sc : String → String → Nat) (items : List String) : Buckets :=
  items.foldl (bucketStep sc) emptyBuckets

/-- Python `str.replace(pat, rep)`: replace all non-overlapping
occurrences, scanning left to right.  `fuel` bounds the recursion; the
callers pass the string length, enough since `pat` is never empty here. -/
def replaceAux (pat rep : List Char) : Nat → List Char → List Char
  | 0, s => s
  | _ + 1, [] => []
  | fuel + 1, c :: cs =>
    match matchTok pat (c :: cs) with
    | some rest => rep ++ replaceAux pat rep fuel rest
    | none => c :: replaceAux pat rep fuel cs

def pyReplace (s pat rep : String) : String :=
  ⟨replaceAux pat.data rep.data s.data.length s.data⟩

/-- Python `str.split(sep)` for a one-character separator: empty segments
are kept (`"a;;b"` gives `["a", "", "b"]`, `""` gives `[""]`). -/
def splitOnChar (p : Char → Bool) : List Char → List String
  | [] => [""]
  | c :: cs =>
    if p c then "" :: splitOnChar p cs
    else
      match splitOnChar p cs with
      | [] => [⟨[c]⟩]
      | t :: ts => ⟨c :: t.data⟩ :: ts

/-- Row splitting of `analyze_row`: replace the `|||`, newline and
carriage-return delimiters by `;`, split on `;`, and keep the entries
whose stripped form is non-empty (the entries themselves stay
unstripped). -/
def splitRow (row : String) : List String :=
  let normalized :=
    pyReplace (pyReplace (pyReplace row "|||" ";") "\n" ";") "\r" ";"
  (splitOnChar (· = ';') normalized.data).filter (fun x => pyStrip x ≠ "")

/-- `analyze_row` from `streamlit_app.py` on a string row: buckets are
scanned in the dict insertion order Morning, Noon, Night. -/
def analyzeRow (sc : String → String → Nat) (provider : String → String)
    (row : String) (rowId : Nat) : List Alert :=
  let b := timeBuckets sc (splitRow row)
  bucketAlerts provider rowId Slot.Morning (b Slot.Morning) ++
    bucketAlerts provider rowId Slot.Noon (b Slot.Noon) ++
      bucketAlerts provider rowId Slot.Night (b Slot.Night)

/-- A fragment of Python's dynamic value universe, enough to express the
`isinstance(x, str)` guards of `clean_drug_name` and `analyze_row`. -/
inductive PyVal
  | pstr (s : String)
  | pint (n : Int)
  | pbool (b : Bool)
  | pnone
deriving DecidableEq

def PyVal.isStr : PyVal → Bool
  | .pstr _ => true
  | _ => false

/-- `clean_drug_name` on an arbitrary value: non-string input returns "". -/
def cleanDrugNameVal (sc : String → String → Nat) : PyVal → String
  | .pstr s => cleanDrugName sc s
  | _ => ""

/-- `analyze_row` on an arbitrary row value: non-string input returns the
empty alert list. -/
def analyzeRowVal (sc : String → String → Nat) (provider : String → String)
    (v : PyVal) (rowId : Nat) : List Alert :=
  match v with
  | .pstr s => analyzeRow sc provider s rowId
  | _ => []

/-- Modelled from the spec: the severity keyword scan the specification
prescribes for fallback label snippets ("presence of any high-severity
term (contraindicated, fatal, severe, major, life-threatening, etc.) →
High; else presence of any moderate term (monitor, caution, risk, adjust,
etc.) → Moderate; else → Low").  The code of `analyze_row` contains no
such scan; this definition exists only to exhibit that divergence. -/
def specSeverityScan (text : String) : String :=
  let t := (pyUpper text).data
  let highTerms := ["CONTRAINDICATED", "FATAL", "SEVERE", "MAJOR", "LIFE-THREATENING"]
  let modTerms := ["MONITOR", "CAUTION", "RISK", "ADJUST"]
  if highTerms.any (fun w => listContains w.data t) then "High"
  else if modTerms.any (fun w => listContains w.data t) then "Moderate"
  else "Low"

/-- A fuzzywuzzy scorer that never reaches the acceptance threshold, as
happens when the processed query shares nothing with any key. -/
def zeroScorer : String → String → Nat := fun _ _ => 0

/-- A label provider that always fails (network unavailable). -/
def emptyProvider : String → String := fun _ => ""

/-- A label provider knowing a one-directional mention: drug `AAA`'s label
mentions `BBB`, while `BBB` has no label text. -/
def provAB : String → String :=
  fun n => if n = "AAA" then "INTERACTS WITH BBB" else ""

/-- A label provider whose text for `AAA` mentions `BBB` amid several
high-severity keywords. -/
def provC6 : String → String :=
  fun n =>
    if n = "AAA" then "USE IS CONTRAINDICATED: SEVERE AND FATAL REACTIONS WITH BBB"
    else ""

/-- A scorer giving the key `aspirin` a similarity of 85 (a realistic
WRatio for a near-miss query) and 0 to every other key. -/
def scorer85 : String → String → Nat :=
  fun _ k => if k = "aspirin" then 85 else 0

/-- A label provider for two drug names that contain no alphabetic
characters at all. -/
def provC9 : String → String :=
  fun n => if n = "---" then "WARNING ----" else ""

/- Helper lemmas. -/

theorem foldl_best_mem (sc : String → String → Nat) (q : String) :
    ∀ (ks : List String) (init : String × Nat),
      (ks.foldl (fun best k2 => if sc q k2 > best.2 then (k2, sc q k2) else best)
          init).1 = init.1 ∨
        (ks.foldl (fun best k2 => if sc q k2 > best.2 then (k2, sc q k2) else best)
            init).1 ∈ ks
  | [], _ => Or.inl rfl
  | k2 :: ks, init => by
    simp only [List.foldl_cons]
    by_cases hc : sc q k2 > init.2
    · rw [if_pos hc]
      rcases foldl_best_mem sc q ks (k2, sc q k2) with h | h
      · exact Or.inr (by rw [h]; exact List.mem_cons_self _ _)
      · exact Or.inr (List.mem_cons_of_mem _ h)
    · rw [if_neg hc]
      rcases foldl_best_mem sc q ks init with h | h
      · exact Or.inl h
      · exact Or.inr (List.mem_cons_of_mem _ h)

theorem extractOne_mem (sc : String → String → Nat) (q : String)
    (keys : List String) (k : String) (s : Nat)
    (h : extractOne sc q keys = some (k, s)) : k ∈ keys := by
  match keys with
  | [] => exact absurd h (by simp [extractOne])
  | k0 :: ks =>
    have hfold := congrArg (fun o => (Option.getD o (k0, 0)).1) h
    simp only [extractOne, Option.getD_some] at hfold
    rcases foldl_best_mem sc q ks (k0, sc q k0) with h1 | h1
    · rw [hfold] at h1
      exact h1 ▸ List.mem_cons_self _ _
    · rw [hfold] at h1
      exact List.mem_cons_of_mem _ h1

theorem fuzzyMatchName_mem (sc : String → String → Nat) (name : String)
    (keys : List String) (k : String)
    (h : fuzzyMatchName sc name keys = some k) : k ∈ keys := by
  unfold fuzzyMatchName at h
  split at h
  · exact absurd h (by simp)
  · split at h
    · exact absurd h (by simp)
    · rename_i ks heq
      split at h
      · cases h
        exact extractOne_mem sc name keys ks.1 ks.2 (by rw [heq])
      · exact absurd h (by simp)

theorem find?_ext {α : Type} (p q : α → Bool) (h : ∀ x, p x = q x) :
    ∀ l : List α, l.find? p = l.find? q
  | [] => rfl
  | x :: xs => by
    simp only [List.find?]
    rw [h x]
    cases q x
    · exact find?_ext p q h xs
    · rfl

set_option maxRecDepth 8000 in
theorem drugKeys_upper_ne_phenytoin : ∀ k ∈ drugKeys, pyUpper k ≠ "PHENYTOIN" := by
  decide

set_option maxRecDepth 8000 in
theorem cleanDrugName_fenitoin_ne (sc : String → String → Nat) :
    cleanDrugName sc "FENITOIN 100MG TAB 1-0-1" ≠ "PHENYTOIN" := by
  have hnorm : normalizeDrugText "FENITOIN 100MG TAB 1-0-1" = "FENITOIN 100MG --" := by
    decide
  have hcontains : drugKeys.contains (pyLower "FENITOIN 100MG --") = false := by
    decide
  simp only [cleanDrugName, getDrugByName, hnorm, hcontains, Bool.false_eq_true,
    if_false]
  cases hf : fuzzyMatchName sc "FENITOIN 100MG --" drugKeys with
  | none => decide
  | some k =>
    exact drugKeys_upper_ne_phenytoin k (fuzzyMatchName_mem sc _ drugKeys k hf)

/-- C4: for every unordered pair of names present in the static knowledge
base, the classification returns that entry's severity and description
with knowledge-base provenance (the `[KB]` prefix) immediately, and the
result is independent of the label-text provider, which is therefore never
consulted for that pair, even when the label-text scan would also match. -/
theorem C4_kb_precedence (p p2 : String → String) (rowId : Nat) (slot : Slot)
    (d1 d2 sev desc : String) (h : kbLookup d1 d2 = some (sev, desc)) :
    classifyPair p rowId slot d1 d2 =
        some ⟨rowId, slot, d1 ++ " + " ++ d2, "[KB] " ++ desc, sev⟩ ∧
      classifyPair p rowId slot d1 d2 = classifyPair p2 rowId slot d1 d2 := by
  unfold classifyPair
  rw [h]
  exact ⟨rfl, rfl⟩

/-- C4 witness: the AMLODIPINE/PHENYTOIN pair of the knowledge base is
classified from the knowledge base, identically under a provider whose
label text would also match and under the empty provider. -/
theorem C4_kb_precedence_witness :
    kbLookup "AMLODIPINE" "PHENYTOIN" =
        some ("Major",
          "Phenytoin decreases levels of Amlodipine by increasing metabolism.") ∧
      classifyPair (fun _ => "LABEL MENTIONING PHENYTOIN AND AMLODIPINE") 1
          Slot.Morning "AMLODIPINE" "PHENYTOIN" =
        some ⟨1, Slot.Morning, "AMLODIPINE + PHENYTOIN",
          "[KB] Phenytoin decreases levels of Amlodipine by increasing metabolism.",
          "Major"⟩ ∧
      classifyPair (fun _ => "LABEL MENTIONING PHENYTOIN AND AMLODIPINE") 1
          Slot.Morning "AMLODIPINE" "PHENYTOIN" =
        classifyPair emptyProvider 1 Slot.Morning "AMLODIPINE" "PHENYTOIN" := by
  refine ⟨by decide, ?_⟩
  exact C4_kb_precedence (fun _ => "LABEL MENTIONING PHENYTOIN AND AMLODIPINE")
    emptyProvider 1 Slot.Morning "AMLODIPINE" "PHENYTOIN" "Major"
    "Phenytoin decreases levels of Amlodipine by increasing metabolism." (by decide)

/-- C5 counterexample: classification is not symmetric.  With a provider
under which drug AAA's label mentions BBB while BBB has no label text, and
the pair absent from the knowledge base, classify(AAA, BBB) produces an
alert but classify(BBB, AAA) produces none: the fallback scan is never
repeated with the roles reversed. -/
theorem C5_counterexample :
    kbLookup "AAA" "BBB" = none ∧
      (classifyPair provAB 1 Slot.Morning "AAA" "BBB").isSome = true ∧
      classifyPair provAB 1 Slot.Morning "BBB" "AAA" = none := by
  decide

/-- C5 amended: only the knowledge-base tier is symmetric in the pair (its
key is an unordered set, matched in either orientation); the fallback tier
searches only the first drug's label for the second drug's name and is not
repeated with the roles reversed, so the full classification need not be
symmetric. -/
theorem C5_kb_symmetric (a b : String) : kbLookup a b = kbLookup b a := by
  unfold kbLookup
  rw [find?_ext _ _ (fun e => Bool.or_comm _ _) knownInteractions]

/-- C6 counterexample: the knowledge base misses, the fallback label scan
matches, and the label text contains the high-severity keywords
`CONTRAINDICATED`, `SEVERE` and `FATAL` — the spec's keyword scan yields
High — yet the emitted alert carries the hard-coded severity Moderate. -/
theorem C6_counterexample :
    kbLookup "AAA" "BBB" = none ∧
      classifyPair provC6 1 Slot.Morning "AAA" "BBB" =
        some ⟨1, Slot.Morning, "AAA + BBB",
          "Potential interaction mentioned in AAA FDA label regarding BBB.",
          "Moderate"⟩ ∧
      specSeverityScan (provC6 "AAA") = "High" ∧
      ("Moderate" : String) ≠ "High" := by
  decide

/-- C6 amended: whenever the knowledge base misses and the fallback
label-text scan finds a match, the alert's severity is the constant
"Moderate" (and its warning the fixed template), regardless of any
severity keywords in the label text; no keyword scan is performed. -/
theorem C6_amended (p : String → String) (rowId : Nat) (slot : Slot)
    (d1 d2 : String) (a : Alert) (hkb : kbLookup d1 d2 = none)
    (h : classifyPair p rowId slot d1 d2 = some a) :
    a.severity = "Moderate" ∧
      a.warning =
        "Potential interaction mentioned in " ++ d1 ++ " FDA label regarding "
          ++ d2 ++ "." := by
  simp only [classifyPair, hkb] at h
  split at h
  · cases h
    exact ⟨rfl, rfl⟩
  · cases h

/-- C6 amended witness: a concrete fallback alert whose label text is full
of high-severity keywords still carries severity Moderate. -/
theorem C6_amended_witness :
    kbLookup "AAA" "BBB" = none ∧
      (⟨1, Slot.Morning, "AAA + BBB",
          "Potential interaction mentioned in AAA FDA label regarding BBB.",
          "Moderate"⟩ : Alert).severity = "Moderate" :=
  ⟨by decide,
    (C6_amended provC6 1 Slot.Morning "AAA" "BBB" _ (by decide) (by decide)).1⟩

set_option maxRecDepth 8000 in
/-- C7 counterexample: under a scorer whose best similarity for the
candidate is 85 — below the spec's claimed threshold of about 88 — the
fuzzy tier still produces a match, because the code's threshold is 80. -/
theorem C7_counterexample :
    extractOne scorer85 "ASPIRINE X" drugKeys = some ("aspirin", 85) ∧
      fuzzyMatchName scorer85 "ASPIRINE X" drugKeys = some "aspirin" ∧
      85 < 88 := by
  decide

/-- C7 amended: the fuzzy tier accepts the best-scoring vocabulary entry
exactly when its score meets the fixed threshold 80 (not 88): given the
best match `(k, s)` of a non-empty candidate, the tier returns `k` iff
`fuzzyThreshold ≤ s`, and `fuzzyThreshold = 80`. -/
theorem C7_amended (sc : String → String → Nat) (name : String)
    (keys : List String) (k : String) (s : Nat) (hname : name ≠ "")
    (hbest : extractOne sc name keys = some (k, s)) :
    (fuzzyMatchName sc name keys = some k ↔ fuzzyThreshold ≤ s) ∧
      fuzzyThreshold = 80 := by
  have hkeys : keys.isEmpty = false := by
    cases keys with
    | nil => exact absurd hbest (by simp [extractOne])
    | cons a l => rfl
  refine ⟨?_, rfl⟩
  unfold fuzzyMatchName
  rw [if_neg (by simp [hname, hkeys]), hbest]
  show (if fuzzyThreshold ≤ s then some k else none) = some k ↔ fuzzyThreshold ≤ s
  by_cases hts : fuzzyThreshold ≤ s
  · rw [if_pos hts]
    exact ⟨fun _ => hts, fun _ => rfl⟩
  · rw [if_neg hts]
    exact ⟨fun hc => Option.noConfusion hc, fun hc => absurd hc hts⟩

set_option maxRecDepth 8000 in
/-- C7 amended witness: the amended rule applied to the concrete scorer
with best score 85 at key `aspirin`. -/
theorem C7_amended_witness :
    ("ASPIRINE X" : String) ≠ "" ∧
      ((fuzzyMatchName scorer85 "ASPIRINE X" drugKeys = some "aspirin") ↔
        fuzzyThreshold ≤ 85) ∧
      fuzzyThreshold = 80 :=
  ⟨by decide,
    C7_amended scorer85 "ASPIRINE X" drugKeys "aspirin" 85 (by decide) (by decide)⟩

/-- C8 counterexample: in the entry `"1-1/0-1"` the triplet is detected
with fields `1`, `1/0`, `1`; the third field is a plain `1`, which
evaluates to a value greater than zero, yet the Night slot is not
activated: `eval` of the middle field `1/0` raises ZeroDivisionError,
which aborts the remaining slot additions, and the partial result
`[Morning]` is returned as authoritative. -/
theorem C8_counterexample :
    findTriplet (pyLower "1-1/0-1").data =
        some (("1", none), ("1", some "0"), ("1", none)) ∧
      evalFieldPos ("1", none) = some true ∧
      parseTimeSlots "1-1/0-1" = [Slot.Morning] ∧
      Slot.Night ∉ parseTimeSlots "1-1/0-1" := by
  decide

/-- C8 amended: when the dash-separated triplet is detected, its fields
are evaluated left to right, aborting at the first field whose evaluation
raises (a zero-valued denominator, or an invalid leading-zero literal
such as `01` — all-zero literals like `00` are valid and evaluate to 0);
each successfully evaluated field greater than zero activates its slot in
the order Morning, Noon, Night; and whenever at least one slot was
activated this way, the triplet result is authoritative: the keyword and
frequency rules are skipped and the result is determined by the triplet
alone. -/
theorem C8_amended (s : String) (t : Triplet)
    (h : findTriplet (pyLower s).data = some t) (hne : tripletSlots t ≠ []) :
    parseTimeSlots s = tripletSlots t := by
  simp only [parseTimeSlots, h]
  exact if_pos hne

/-- C8 amended witness: the entry `"obat 1-0-1"` gets exactly the
triplet-determined slots Morning and Night. -/
theorem C8_amended_witness :
    findTriplet (pyLower "obat 1-0-1").data =
        some (("1", none), ("0", none), ("1", none)) ∧
      tripletSlots (("1", none), ("0", none), ("1", none)) =
        [Slot.Morning, Slot.Night] ∧
      parseTimeSlots "obat 1-0-1" =
        tripletSlots (("1", none), ("0", none), ("1", none)) :=
  ⟨by decide, by decide,
    C8_amended "obat 1-0-1" (("1", none), ("0", none), ("1", none))
      (by decide) (by decide)⟩

/-- C10: for every non-string row value, `analyze_row` returns the empty
alert list (its `isinstance` guard, total in the embedding, so no
exception), and `clean_drug_name` returns the empty string on the same
non-string values. -/
theorem C10_nonstring (sc : String → String → Nat) (p : String → String)
    (v : PyVal) (rowId : Nat) (h : v.isStr = false) :
    analyzeRowVal sc p v rowId = [] ∧ cleanDrugNameVal sc v = "" := by
  cases v with
  | pstr s => exact absurd h (by simp [PyVal.isStr])
  | pint n => exact ⟨rfl, rfl⟩
  | pbool b => exact ⟨rfl, rfl⟩
  | pnone => exact ⟨rfl, rfl⟩

/-- C10 witness: the integer row value 5 is not a string and yields the
empty alert list and the empty cleaned name. -/
theorem C10_nonstring_witness :
    (PyVal.pint 5).isStr = false ∧
      analyzeRowVal zeroScorer emptyProvider (PyVal.pint 5) 1 = [] ∧
      cleanDrugNameVal zeroScorer (PyVal.pint 5) = "" :=
  ⟨rfl, (C10_nonstring zeroScorer emptyProvider (PyVal.pint 5) 1 rfl).1,
    (C10_nonstring zeroScorer emptyProvider (PyVal.pint 5) 1 rfl).2⟩

/- Bucket lemmas for the orchestrator claims. -/

theorem mem_addName_self (b : Buckets) (s : Slot) (name : String) :
    name ∈ addName b s name s := by
  unfold addName
  rw [if_pos rfl]
  exact List.mem_append_right _ (List.mem_singleton.mpr rfl)

theorem addName_mono (b : Buckets) (sa sq : Slot) (name x : String)
    (h : x ∈ b sq) : x ∈ addName b sa name sq := by
  unfold addName
  split
  · exact List.mem_append_left _ h
  · exact h

theorem mem_addName_cases (b : Buckets) (sa sq : Slot) (name x : String)
    (h : x ∈ addName b sa name sq) : x ∈ b sq ∨ x = name := by
  unfold addName at h
  split at h
  · rcases List.mem_append.mp h with h1 | h1
    · exact Or.inl h1
    · exact Or.inr (List.mem_singleton.mp h1)
  · exact Or.inl h

theorem foldl_addName_mono (name x : String) :
    ∀ (slots : List Slot) (b : Buckets) (s : Slot), x ∈ b s →
      x ∈ (slots.foldl (fun b2 s2 => addName b2 s2 name) b) s
  | [], _, _, h => h
  | s0 :: rest, b, s, h => by
    simp only [List.foldl_cons]
    exact foldl_addName_mono name x rest _ s (addName_mono b s0 s name x h)

theorem foldl_addName_self (name : String) :
    ∀ (slots : List Slot) (b : Buckets) (s : Slot), s ∈ slots →
      name ∈ (slots.foldl (fun b2 s2 => addName b2 s2 name) b) s
  | [], _, _, h => absurd h (List.not_mem_nil _)
  | s0 :: rest, b, s, h => by
    simp only [List.foldl_cons]
    rcases List.mem_cons.mp h with rfl | hmem
    · exact foldl_addName_mono name name rest _ s (mem_addName_self b s name)
    · exact foldl_addName_self name rest _ s hmem

theorem mem_foldl_addName_cases (name x : String) :
    ∀ (slots : List Slot) (b : Buckets) (s : Slot),
      x ∈ (slots.foldl (fun b2 s2 => addName b2 s2 name) b) s →
        x ∈ b s ∨ x = name
  | [], _, _, h => Or.inl h
  | s0 :: rest, b, s, h => by
    simp only [List.foldl_cons] at h
    rcases mem_foldl_addName_cases name x rest _ s h with h1 | h1
    · exact mem_addName_cases b s0 s name x h1
    · exact Or.inr h1

theorem bucketStep_mono (sc : String → String → Nat) (b : Buckets)
    (item : String) (s : Slot) (x : String) (h : x ∈ b s) :
    x ∈ bucketStep sc b item s := by
  simp only [bucketStep]
  split
  · exact h
  · exact foldl_addName_mono _ x _ b s h

theorem foldl_bucketStep_mono (sc : String → String → Nat) (x : String) :
    ∀ (items : List String) (b : Buckets) (s : Slot), x ∈ b s →
      x ∈ (items.foldl (bucketStep sc) b) s
  | [], _, _, h => h
  | i :: rest, b, s, h => by
    simp only [List.foldl_cons]
    exact foldl_bucketStep_mono sc x rest _ s (bucketStep_mono sc b i s x h)

theorem mem_foldl_bucketStep (sc : String → String → Nat) (item : String)
    (s : Slot) (hname : cleanDrugName sc item ≠ "")
    (hs : s ∈ parseTimeSlots item) :
    ∀ (items : List String) (b : Buckets), item ∈ items →
      cleanDrugName sc item ∈ (items.foldl (bucketStep sc) b) s
  | [], _, h => absurd h (List.not_mem_nil _)
  | i :: rest, b, h => by
    simp only [List.foldl_cons]
    rcases List.mem_cons.mp h with rfl | hmem
    · apply foldl_bucketStep_mono sc _ rest _ s
      simp only [bucketStep]
      rw [if_neg hname]
      exact foldl_addName_self _ _ b s hs
    · exact mem_foldl_bucketStep sc item s hname hs rest _ hmem

theorem mem_foldl_bucketStep_cases (sc : String → String → Nat) (x : String)
    (s : Slot) :
    ∀ (items : List String) (b : Buckets),
      x ∈ (items.foldl (bucketStep sc) b) s →
        x ∈ b s ∨ ∃ item, item ∈ items ∧ cleanDrugName sc item = x ∧ x ≠ ""
  | [], _, h => Or.inl h
  | i :: rest, b, h => by
    simp only [List.foldl_cons] at h
    rcases mem_foldl_bucketStep_cases sc x s rest _ h with h1 | h1
    · by_cases hn : cleanDrugName sc i = ""
      · left
        simpa [bucketStep, hn] using h1
      · have h2 := mem_foldl_addName_cases (cleanDrugName sc i) x
          (parseTimeSlots i) b s (by simpa [bucketStep, hn] using h1)
        rcases h2 with h3 | h3
        · exact Or.inl h3
        · exact Or.inr ⟨i, List.mem_cons_self _ _, h3.symm,
            fun hx => hn (h3.symm.trans hx)⟩
    · rcases h1 with ⟨item, hm, hcl, hne⟩
      exact Or.inr ⟨item, List.mem_cons_of_mem _ hm, hcl, hne⟩

/- Pair-enumeration lemmas for the per-slot deduplication claim. -/

theorem mem_pairsOf (x : String × String) :
    ∀ l : List String, x ∈ pairsOf l → x.1 ∈ l ∧ x.2 ∈ l
  | [], h => absurd h (List.not_mem_nil _)
  | d :: ds, h => by
    simp only [pairsOf] at h
    rcases List.mem_append.mp h with h1 | h1
    · rcases List.mem_map.mp h1 with ⟨e, he, rfl⟩
      exact ⟨List.mem_cons_self _ _, List.mem_cons_of_mem _ he⟩
    · have h2 := mem_pairsOf x ds h1
      exact ⟨List.mem_cons_of_mem _ h2.1, List.mem_cons_of_mem _ h2.2⟩

/-- Two candidate pairs are distinct even as unordered pairs. -/
def UnordNe (p q : String × String) : Prop :=
  ¬(p.1 = q.1 ∧ p.2 = q.2) ∧ ¬(p.1 = q.2 ∧ p.2 = q.1)

theorem pairsOf_pairwise :
    ∀ l : List String, l.Nodup →
      (pairsOf l).Pairwise UnordNe ∧ ∀ p ∈ pairsOf l, p.1 ≠ p.2
  | [], _ => ⟨List.Pairwise.nil, fun p hp => absurd hp (List.not_mem_nil _)⟩
  | d :: ds, hnd => by
    have hd : d ∉ ds := (List.nodup_cons.mp hnd).1
    have hds : ds.Nodup := (List.nodup_cons.mp hnd).2
    have IH := pairsOf_pairwise ds hds
    constructor
    · simp only [pairsOf]
      rw [List.pairwise_append]
      refine ⟨?_, IH.1, ?_⟩
      · rw [List.pairwise_map]
        refine List.Pairwise.imp_of_mem ?_ hds
        intro e1 e2 h1 h2 hne
        constructor
        · intro hc
          exact hne hc.2
        · intro hc
          have hde : d = e2 := hc.1
          exact hd (by rw [hde]; exact h2)
      · intro a ha b hb
        rcases List.mem_map.mp ha with ⟨e, he, rfl⟩
        have hb2 := mem_pairsOf b ds hb
        constructor
        · intro hc
          have hdb : d = b.1 := hc.1
          exact hd (by rw [hdb]; exact hb2.1)
        · intro hc
          have hdb : d = b.2 := hc.1
          exact hd (by rw [hdb]; exact hb2.2)
    · intro p hp
      simp only [pairsOf] at hp
      rcases List.mem_append.mp hp with h1 | h1
      · rcases List.mem_map.mp h1 with ⟨e, he, rfl⟩
        intro hc
        have hde : d = e := hc
        exact hd (by rw [hde]; exact he)
      · exact IH.2 p h1

theorem sortedUnique_nodup (l : List String) : (sortedUnique l).Nodup :=
  ((List.perm_insertionSort _ _).nodup_iff).mpr (List.nodup_dedup l)

set_option maxRecDepth 8000 in
/-- C1 counterexample: no deduplication across buckets.  In the row
`"IBUPROFEN#1-0-1;ASPIRIN#1-0-1"` both entries resolve to knowledge-base
drugs and both occupy the Morning and Night buckets, so the same
(prescription id, pair) combination ASPIRIN + IBUPROFEN is emitted twice —
once per bucket — instead of exactly once. -/
theorem C1_counterexample :
    analyzeRow zeroScorer emptyProvider "IBUPROFEN#1-0-1;ASPIRIN#1-0-1" 1 =
      [⟨1, Slot.Morning, "ASPIRIN + IBUPROFEN",
        "[KB] Ibuprofen may interfere with the anti-platelet effect of low-dose Aspirin.",
        "Major"⟩,
       ⟨1, Slot.Night, "ASPIRIN + IBUPROFEN",
        "[KB] Ibuprofen may interfere with the anti-platelet effect of low-dose Aspirin.",
        "Major"⟩] := by
  decide

/-- C1 amended: deduplication happens only within a single bucket, per
(prescription id, slot, pair): the candidate pairs enumerated over a
bucket (set-deduplicated, sorted, `i < j`) are pairwise distinct even as
unordered pairs, and contain no self-pairs, so one bucket contributes at
most one alert per unordered pair; a pair detected in several buckets is
emitted once per bucket, with no cross-bucket deduplication. -/
theorem C1_amended (l : List String) :
    (pairsOf (sortedUnique l)).Pairwise UnordNe ∧
      ∀ p ∈ pairsOf (sortedUnique l), p.1 ≠ p.2 :=
  pairsOf_pairwise (sortedUnique l) (sortedUnique_nodup l)

/-- C1 amended witness: the pair enumeration of a concrete bucket with a
duplicated name contains (ASPIRIN, IBUPROFEN), whose components differ. -/
theorem C1_amended_witness :
    ("ASPIRIN", "IBUPROFEN") ∈
        pairsOf (sortedUnique ["IBUPROFEN", "ASPIRIN", "IBUPROFEN"]) ∧
      ("ASPIRIN" : String) ≠ "IBUPROFEN" :=
  ⟨by decide,
    (C1_amended ["IBUPROFEN", "ASPIRIN", "IBUPROFEN"]).2 ("ASPIRIN", "IBUPROFEN")
      (by decide)⟩

set_option maxRecDepth 8000 in
/-- C2 counterexample: there is no Global bucket.  In the row
`"IBUPROFEN#1-0-0;ASPIRIN#0-0-1"` the entries resolve to IBUPROFEN
(Morning only) and ASPIRIN (Night only); the pair is in the knowledge
base, yet the analysis returns no alert at all, because the names are
placed only in their per-slot buckets and the pair never shares one. -/
theorem C2_counterexample :
    cleanDrugName zeroScorer "IBUPROFEN#1-0-0" = "IBUPROFEN" ∧
      cleanDrugName zeroScorer "ASPIRIN#0-0-1" = "ASPIRIN" ∧
      (kbLookup "ASPIRIN" "IBUPROFEN").isSome = true ∧
      analyzeRow zeroScorer emptyProvider "IBUPROFEN#1-0-0;ASPIRIN#0-0-1" 2 = [] := by
  decide

/-- C2 amended: every resolved canonical name is added to each of its
entry's active per-slot buckets (Morning, Noon, Night) — but only to
those: there is no slot-agnostic Global bucket, so only pairs that share
some per-slot bucket are ever classified. -/
theorem C2_amended (sc : String → String → Nat) (items : List String)
    (item : String) (hmem : item ∈ items)
    (hname : cleanDrugName sc item ≠ "") (s : Slot)
    (hs : s ∈ parseTimeSlots item) :
    cleanDrugName sc item ∈ timeBuckets sc items s :=
  mem_foldl_bucketStep sc item s hname hs items emptyBuckets hmem

set_option maxRecDepth 8000 in
/-- C2 amended witness: the entry `"IBUPROFEN#1-0-1"` resolves to a
non-empty name and lands in its active Morning bucket. -/
theorem C2_amended_witness :
    cleanDrugName zeroScorer "IBUPROFEN#1-0-1" ≠ "" ∧
      Slot.Morning ∈ parseTimeSlots "IBUPROFEN#1-0-1" ∧
      cleanDrugName zeroScorer "IBUPROFEN#1-0-1" ∈
        timeBuckets zeroScorer ["IBUPROFEN#1-0-1"] Slot.Morning :=
  ⟨by decide, by decide,
    C2_amended zeroScorer ["IBUPROFEN#1-0-1"] "IBUPROFEN#1-0-1" (by decide)
      (by decide) Slot.Morning (by decide)⟩

set_option maxRecDepth 8000 in
/-- C3: evaluation of the code at the spec's Scenario A row.  The second
entry normalises to `"FENITOIN 100MG --"` (the `MG` token is not stripped
inside `100MG` because the regex word boundary fails between a digit and a
letter), and under every fuzzy scorer whatsoever its resolution cannot be
`PHENYTOIN`, since the structured database has no phenytoin entry at all
(`"phenytoin"` is not among its keys) and the raw fallback keeps the
normalised text.  Consequently the expected AMLODIPINE + PHENYTOIN
knowledge-base alert is unreachable; with a no-match scorer and an
unavailable label provider the row yields no alert whatsoever. -/
theorem C3_no_phenytoin :
    (∀ sc : String → String → Nat,
        cleanDrugName sc "FENITOIN 100MG TAB 1-0-1" ≠ "PHENYTOIN") ∧
      cleanDrugName zeroScorer "FENITOIN 100MG TAB 1-0-1" = "FENITOIN 100MG --" ∧
      "phenytoin" ∉ drugKeys ∧
      analyzeRow zeroScorer emptyProvider
        "AMLODIPIN 10 MG TABLET#30;FENITOIN 100MG TAB 1-0-1" 1 = [] :=
  ⟨cleanDrugName_fenitoin_ne, by decide, by decide, by decide⟩

set_option maxRecDepth 8000 in
/-- C9 counterexample: the normaliser does not return "" whenever no
alphabetic content remains, and such entries are not dropped: the raw
entry `"1-0-1-0"` cleans to the non-empty, letterless `"---"`, the entry
`"1--0--1"` to `"----"`, and with a provider whose label text for `"---"`
mentions `"----"` the row of these two letterless entries even produces an
alert. -/
theorem C9_counterexample :
    cleanDrugName zeroScorer "1-0-1-0" = "---" ∧
      ("---" : String) ≠ "" ∧
      "---".data.all (fun c => !c.isAlpha) = true ∧
      analyzeRow zeroScorer provC9 "1-0-1-0;1--0--1" 7 =
        [⟨7, Slot.Morning, "--- + ----",
          "Potential interaction mentioned in --- FDA label regarding ----.",
          "Moderate"⟩] := by
  decide

/-- C9 amended: the orchestrator drops exactly the entries whose cleaned
name is the empty string: every name occurring in any bucket is the
non-empty cleaned name of some entry of the row (the normaliser can
return "" — e.g. when nothing remains — and only those entries vanish;
but a letterless non-empty residue is kept). -/
theorem C9_amended (sc : String → String → Nat) (items : List String)
    (s : Slot) (x : String) (h : x ∈ timeBuckets sc items s) :
    ∃ item, item ∈ items ∧ cleanDrugName sc item = x ∧ x ≠ "" := by
  rcases mem_foldl_bucketStep_cases sc x s items emptyBuckets h with h1 | h1
  · exact absurd h1 (List.not_mem_nil _)
  · exact h1

set_option maxRecDepth 8000 in
/-- C9 amended witness: the name IBUPROFEN found in the Morning bucket of
a one-entry row is the non-empty cleaned name of that entry. -/
theorem C9_amended_witness :
    "IBUPROFEN" ∈ timeBuckets zeroScorer ["IBUPROFEN#1-0-1"] Slot.Morning ∧
      ∃ item, item ∈ ["IBUPROFEN#1-0-1"] ∧
        cleanDrugName zeroScorer item = "IBUPROFEN" ∧
        ("IBUPROFEN" : String) ≠ "" :=
  ⟨by decide,
    C9_amended zeroScorer ["IBUPROFEN#1-0-1"] Slot.Morning "IBUPROFEN"
      (by decide)⟩

end DDI
